import Mathlib

/-!
Verification of the MCP tool server in `src/index.js`.

The file shallowly embeds the two tool handlers (`get_weather`, `read_file`)
and the path guard of the server.  JavaScript numbers are modelled as exact
rationals, JSON values as an inductive type, the outbound HTTP call and the
filesystem as explicit parameters, and uncaught JavaScript exceptions as the
`Except.error` branch of the handler result.
-/

set_option maxHeartbeats 1000000

namespace Mcp

/-- A JavaScript value as produced by `response.json()` (plus `undefined`,
which property access on a missing key yields). Numbers are exact rationals;
JSON cannot encode NaN or infinities. -/
inductive JsValue where
  | undefined
  | null
  | bool (b : Bool)
  | num (q : ℚ)
  | str (s : String)
  | arr (elems : List JsValue)
  | obj (fields : List (String × JsValue))

/-- JS property access `v.k`. Reading a property of `undefined` or `null`
throws a TypeError; reading a missing key of an object yields `undefined`;
property access on primitives and arrays (no such named property is used by
the source) yields `undefined`. -/
def jsGet : JsValue → String → Except String JsValue
  | .undefined, k => .error ("TypeError: cannot read properties of undefined (reading " ++ k ++ ")")
  | .null, k => .error ("TypeError: cannot read properties of null (reading " ++ k ++ ")")
  | .obj fields, k => .ok ((fields.lookup k).getD .undefined)
  | _, _ => .ok .undefined

/-- JS bracket access `v[i]` with a numeric index, as in `data.weather[0]`. -/
def jsIndex : JsValue → Nat → Except String JsValue
  | .undefined, _ => .error "TypeError: cannot read properties of undefined (reading 0)"
  | .null, _ => .error "TypeError: cannot read properties of null (reading 0)"
  | .arr elems, i => .ok (elems.getD i .undefined)
  | .obj fields, i => .ok ((fields.lookup (Nat.repr i)).getD .undefined)
  | _, _ => .ok .undefined

/-- JS ToNumber coercion, `none` meaning NaN.  String/array/object coercion is
abstracted to NaN; on every path of this file where the coercion is applied
the value is a number, `undefined`, `null` or a boolean. -/
def toNumber : JsValue → Option ℚ
  | .num q => some q
  | .null => some 0
  | .bool b => some (if b then 1 else 0)
  | _ => none

/-- JS truthiness, as used by `data.visibility ? _ : _`. -/
def jsTruthy : JsValue → Bool
  | .undefined => false
  | .null => false
  | .bool b => b
  | .num q => decide (q ≠ 0)
  | .str s => decide (s ≠ "")
  | .arr _ => true
  | .obj _ => true

/-- Floor of a rational (`Rat.floor_def`: numerator Euclidean-divided by the
denominator), kept in this computable form so that concrete instances reduce. -/
def ratFloor (q : ℚ) : ℤ := q.num / q.den

theorem ratFloor_eq_floor (q : ℚ) : ratFloor q = ⌊q⌋ := Rat.floor_def.symm

/-- `Number.prototype.toFixed(1)` on an exact rational: ECMA-262 rounds the
magnitude to the nearest multiple of 1/10, ties away from zero, and prepends
the sign. -/
def toFixed1 (q : ℚ) : String :=
  let sign := if q < 0 then "-" else ""
  let n : ℤ := ratFloor (10 * |q| + 1 / 2)
  sign ++ Nat.repr (n.toNat / 10) ++ "." ++ Nat.repr (n.toNat % 10)

/-- `v.toFixed(1)`: only numbers carry `toFixed`; every other receiver throws. -/
def jsToFixed1 : JsValue → Except String String
  | .num q => .ok (toFixed1 q)
  | .undefined => .error "TypeError: cannot read properties of undefined (reading toFixed)"
  | .null => .error "TypeError: cannot read properties of null (reading toFixed)"
  | _ => .error "TypeError: toFixed is not a function"

/-- `((v - 32) * 5 / 9).toFixed(1)` (src/index.js line 58): arithmetic applies
ToNumber coercion, NaN propagates, and `NaN.toFixed(1)` is the string NaN. -/
def tempCString (v : JsValue) : String :=
  match toNumber v with
  | some q => toFixed1 ((q - 32) * 5 / 9)
  | none => "NaN"

/-- `(v / 1000).toFixed(1)` (src/index.js line 62). -/
def visString (v : JsValue) : String :=
  match toNumber v with
  | some q => toFixed1 (q / 1000)
  | none => "NaN"

/-- JS number-to-string in a template literal: exact for integers; the
shortest-round-trip printing of non-integral doubles is abstracted (no theorem
below depends on that branch). -/
def jsNumToString (q : ℚ) : String :=
  if q.den = 1 then (if q.num < 0 then "-" else "") ++ Nat.repr q.num.natAbs
  else Int.repr q.num ++ "/" ++ Nat.repr q.den

/-- JS template-literal conversion of an interpolated value. -/
def jsTemplate : JsValue → String
  | .undefined => "undefined"
  | .null => "null"
  | .bool b => if b then "true" else "false"
  | .num q => jsNumToString q
  | .str s => s
  | .arr elems => String.intercalate "," (elems.attach.map fun x => jsTemplate x.1)
  | .obj _ => "[object Object]"
decreasing_by
  have h := List.sizeOf_lt_of_mem x.2
  simp only [JsValue.arr.sizeOf_spec]
  omega

/-- One content block of a tool result, `{ type: "text", text }`. -/
structure ContentBlock where
  type : String
  text : String
  deriving DecidableEq

/-- A tool-call result, `{ content: [...] }` as both handlers return it. -/
structure CallResult where
  content : List ContentBlock
  deriving DecidableEq

/-- An upstream HTTP response: status code and (already JSON-parsed) body. -/
structure HttpResponse where
  status : Nat
  body : JsValue

/-- `Response.ok` of fetch: status in the inclusive range 200–299. -/
def respOk (status : Nat) : Bool := decide (200 ≤ status ∧ status < 300)

/-- The API credential bundled in the source (src/index.js line 28). -/
def WEATHER_API_KEY : String := "9e16d62c8463bb8555971f49447c76e1"

/-- The summary template (src/index.js lines 64–71): the six template lines
joined with a newline, written here as one flat concatenation. -/
def mkSummaryStrs (city country description tempC tempF feelsLikeF humidity windMph visibility : String) : String :=
  "Weather for " ++ city ++ ", " ++ country ++
  "\nCondition:   " ++ description ++
  "\nTemperature: " ++ tempC ++ "°C / " ++ tempF ++ "°F (feels like " ++ feelsLikeF ++ "°F)" ++
  "\nHumidity:    " ++ humidity ++ "%" ++
  "\nWind:        " ++ windMph ++ " mph" ++
  "\nVisibility:  " ++ visibility ++ " km"

/-- The `get_weather` handler (src/index.js lines 38–76), given the response
of the single outbound fetch.  The `Except.error` branch models a JavaScript
exception escaping the handler (the source has no try/catch here); statements
are sequenced exactly as in the source, including the repeated `data.main`
and `data.main.temp` accesses. -/
def get_weather (location : String) (resp : HttpResponse) : Except String CallResult :=
  if !respOk resp.status then
    .ok ⟨[⟨"text", "Failed to fetch weather for \"" ++ location ++ "\": HTTP " ++ Nat.repr resp.status⟩]⟩
  else do
    let data := resp.body
    let city ← jsGet data "name"
    let sysV ← jsGet data "sys"
    let country ← jsGet sysV "country"
    let weatherV ← jsGet data "weather"
    let weather0 ← jsIndex weatherV 0
    let description ← jsGet weather0 "description"
    let mainA ← jsGet data "main"
    let tempA ← jsGet mainA "temp"
    let tempF ← jsToFixed1 tempA
    let mainB ← jsGet data "main"
    let tempB ← jsGet mainB "temp"
    let tempC := tempCString tempB
    let mainC ← jsGet data "main"
    let feelsV ← jsGet mainC "feels_like"
    let feelsLikeF ← jsToFixed1 feelsV
    let mainD ← jsGet data "main"
    let humidity ← jsGet mainD "humidity"
    let windV ← jsGet data "wind"
    let speedV ← jsGet windV "speed"
    let windMph ← jsToFixed1 speedV
    let visV ← jsGet data "visibility"
    let visibility := if jsTruthy visV then visString visV else "N/A"
    let summary := mkSummaryStrs (jsTemplate city) (jsTemplate country)
      (jsTemplate description) tempC tempF feelsLikeF (jsTemplate humidity)
      windMph visibility
    .ok ⟨[⟨"text", summary⟩]⟩

/-- JS `String.prototype.startsWith`: `s` begins with the code units of `p`. -/
def jsStartsWith (s p : String) : Bool := p.data.isPrefixOf s.data

/-- Split a character list at every slash (JS `split` keeps empty pieces; they
are filtered away by `pathSegs`). -/
def splitSlashAux : List Char → List Char → List String
  | [], acc => [String.mk acc.reverse]
  | c :: rest, acc =>
      if c = '/' then String.mk acc.reverse :: splitSlashAux rest []
      else splitSlashAux rest (c :: acc)

/-- The slash-separated segments of a path, dropping empty and `.` segments. -/
def pathSegs (s : String) : List String :=
  (splitSlashAux s.data []).filter fun seg => seg != "" && seg != "."

/-- Lexical resolution of `..` segments; `..` at the root is dropped, as POSIX
`path.resolve` clamps at `/`. -/
def normSegs (segs : List String) : List String :=
  segs.foldl (fun acc seg => if seg = ".." then acc.dropLast else acc ++ [seg]) []

/-- Node `path.resolve(dir, name)` for an absolute `dir` (`FILES_DIR` is built
absolute at startup): purely lexical normalization, no filesystem access. -/
def pathResolve (dir name : String) : String :=
  if jsStartsWith name "/" then
    "/" ++ String.intercalate "/" (normSegs (pathSegs name))
  else
    "/" ++ String.intercalate "/" (normSegs (pathSegs (dir ++ "/" ++ name)))

/-- The path guard of `read_file` (src/index.js lines 95–100): resolve the
filename against the sandbox root, then a bare string-prefix test.  The guard
is a pure function of its two string arguments; it takes no filesystem. -/
def pathGuard (filesDir filename : String) : Option String :=
  let filepath := pathResolve filesDir filename
  if jsStartsWith filepath filesDir then some filepath else none

/-- The kinds of local read failure the spec distinguishes; `read_file`
collapses all of them. -/
inductive FsError where
  | notFound
  | permissionDenied
  | isDirectory
  | decodeError
  deriving DecidableEq

/-- The `read_file` handler (src/index.js lines 91–114) over an explicit
filesystem oracle `fs` standing for `fs.readFile(· , "utf-8")`; the `match` on
the oracle result models the source try/catch, so a read failure of any kind
produces the collapsed message and never escapes the handler. -/
def read_file (filesDir : String) (fs : String → Except FsError String) (filename : String) : CallResult :=
  let filepath := pathResolve filesDir filename
  if !jsStartsWith filepath filesDir then
    ⟨[⟨"text", "Access denied: path is outside the files directory."⟩]⟩
  else
    match fs filepath with
    | .ok content => ⟨[⟨"text", content⟩]⟩
    | .error _ => ⟨[⟨"text", "File not found: \"" ++ filename ++ "\" does not exist in the files/ directory"⟩]⟩

/-! Helper notions and lemmas. -/

/-- `sub` occurs contiguously inside `s`. -/
def Contains (s sub : String) : Prop := ∃ p q, s = p ++ sub ++ q

/-- The code units of the bundled API credential. -/
def keyChars : List Char := WEATHER_API_KEY.data

/-- `s` does not contain the API credential. -/
def NoKey (s : String) : Prop := ¬ keyChars <:+: s.data

/-- An occurrence inside `a ++ b` lies inside `a`, inside `b`, or spans the
boundary with a nonempty suffix of `a` and a nonempty prefix of `b`. -/
theorem sub_append_cases {α : Type} {u a b : List α} (h : u <:+: a ++ b) :
    u <:+: a ∨ u <:+: b ∨
      ∃ u₁ u₂, u = u₁ ++ u₂ ∧ u₁ ≠ [] ∧ u₂ ≠ [] ∧ u₁ <:+ a ∧ u₂ <+: b := by
  obtain ⟨s, t, hst⟩ := h
  rcases List.append_eq_append_iff.mp hst with ⟨m, hm1, hm2⟩ | ⟨m, hm1, hm2⟩
  · exact Or.inl ⟨s, m, hm1.symm⟩
  · rcases List.append_eq_append_iff.mp hm1 with ⟨x, hx1, hx2⟩ | ⟨x, hx1, hx2⟩
    · rcases eq_or_ne x [] with rfl | hx
      · refine Or.inr (Or.inl (List.IsPrefix.isInfix ⟨t, ?_⟩))
        rw [List.nil_append] at hx2
        rw [← hx2] at hm2
        exact hm2.symm
      · rcases eq_or_ne m [] with rfl | hm
        · rw [List.append_nil] at hx2
          exact Or.inl (List.IsSuffix.isInfix ⟨s, by rw [← hx2] at hx1; exact hx1.symm⟩)
        · exact Or.inr (Or.inr ⟨x, m, hx2, hx, hm, ⟨s, hx1.symm⟩, ⟨t, hm2.symm⟩⟩)
    · refine Or.inr (Or.inl ⟨x, t, ?_⟩)
      rw [hm2, hx2]

/-- If `u` occurs in `a ++ b` but not in `a`, and the last element of `a` is
not an element of `u`, the occurrence lies inside `b`. -/
theorem sub_right_of_last {u a b : List Char} (h : u <:+: a ++ b)
    (ha : ¬ u <:+: a) (c : Char) (hc : a.getLast? = some c) (hcu : c ∉ u) :
    u <:+: b := by
  rcases sub_append_cases h with h1 | h1 | ⟨u₁, u₂, rfl, h1ne, _, hsuf, _⟩
  · exact absurd h1 ha
  · exact h1
  · exfalso
    obtain ⟨w, rfl⟩ := hsuf
    rw [List.getLast?_append_of_ne_nil _ h1ne,
      List.getLast?_eq_getLast_of_ne_nil h1ne] at hc
    have hgl : u₁.getLast h1ne = c := Option.some_inj.mp hc
    exact hcu (List.mem_append_left _ (hgl ▸ List.getLast_mem h1ne))

/-- If `u` occurs in `a ++ b` but not in `a`, and the first element of `b` is
not an element of `u`, the occurrence lies inside `b`. -/
theorem sub_right_of_head {u a b : List Char} (h : u <:+: a ++ b)
    (ha : ¬ u <:+: a) (c : Char) (hc : b.head? = some c) (hcu : c ∉ u) :
    u <:+: b := by
  rcases sub_append_cases h with h1 | h1 | ⟨u₁, u₂, rfl, _, h2ne, _, hpre⟩
  · exact absurd h1 ha
  · exact h1
  · exfalso
    obtain ⟨w, rfl⟩ := hpre
    rw [List.head?_append_of_ne_nil _ h2ne] at hc
    have hmem : c ∈ u₂ := by
      cases u₂ with
      | nil => exact absurd rfl h2ne
      | cons x xs => simp_all
    exact hcu (List.mem_append_right _ hmem)

/-- The characters that can occur in a formatted number: sign, dot, slash and
decimal digits. -/
def numChars : List Char := ['-', '.', '/', '0', '1', '2', '3', '4', '5', '6', '7', '8', '9']

theorem digitChar_mem_numChars (m : Nat) (h : m < 10) : Nat.digitChar m ∈ numChars := by
  interval_cases m <;> decide

theorem toDigitsCore_chars (fuel : Nat) :
    ∀ (n : Nat) (ds : List Char), (∀ c ∈ ds, c ∈ numChars) →
      ∀ c ∈ Nat.toDigitsCore 10 fuel n ds, c ∈ numChars := by
  induction fuel with
  | zero => intro n ds hds c hc; exact hds c hc
  | succ f ih =>
    intro n ds hds c hc
    rw [Nat.toDigitsCore] at hc
    have hcons : ∀ x ∈ Nat.digitChar (n % 10) :: ds, x ∈ numChars := by
      intro x hx
      rcases List.mem_cons.mp hx with rfl | hx
      · exact digitChar_mem_numChars _ (Nat.mod_lt _ (by norm_num))
      · exact hds x hx
    by_cases hz : n / 10 = 0
    · rw [if_pos hz] at hc
      exact hcons c hc
    · rw [if_neg hz] at hc
      exact ih _ _ hcons c hc

theorem nat_repr_chars (n : Nat) : ∀ c ∈ (Nat.repr n).data, c ∈ numChars := by
  intro c hc
  exact toDigitsCore_chars (n + 1) n [] (by simp) c hc

theorem int_repr_chars (n : ℤ) : ∀ c ∈ (Int.repr n).data, c ∈ numChars := by
  intro c hc
  cases n with
  | ofNat m =>
      have he : Int.repr (Int.ofNat m) = Nat.repr m := rfl
      rw [he] at hc
      exact nat_repr_chars m c hc
  | negSucc m =>
      have he : Int.repr (Int.negSucc m) = "-" ++ Nat.repr (m + 1) := rfl
      have hd : ("-" : String).data = ['-'] := rfl
      rw [he, String.data_append, hd] at hc
      rcases List.mem_append.mp hc with h | h
      · rcases List.mem_singleton.mp h with rfl
        decide
      · exact nat_repr_chars _ c h

/-- Every infix of a string made of `numChars` misses the credential, because
the credential contains the letter e. -/
theorem noKey_of_numChars {s : String} (hs : ∀ c ∈ s.data, c ∈ numChars) : NoKey s := by
  intro h
  have he : 'e' ∈ keyChars := by decide
  have : 'e' ∈ numChars := hs _ (h.subset he)
  exact absurd this (by decide)

theorem toFixed1_chars (q : ℚ) : ∀ c ∈ (toFixed1 q).data, c ∈ numChars := by
  intro c hc
  rw [toFixed1] at hc
  simp only [String.data_append] at hc
  have hdot : ("." : String).data = ['.'] := rfl
  have hneg : ("-" : String).data = ['-'] := rfl
  have hnil : ("" : String).data = [] := rfl
  rcases List.mem_append.mp hc with hc | hc
  · rcases List.mem_append.mp hc with hc | hc
    · rcases List.mem_append.mp hc with hc | hc
      · rcases lt_or_le q 0 with h | h
        · rw [if_pos h, hneg] at hc
          rcases List.mem_singleton.mp hc with rfl
          decide
        · rw [if_neg (not_lt.mpr h), hnil] at hc
          cases hc
      · exact nat_repr_chars _ c hc
    · rcases List.mem_singleton.mp hc with rfl
      decide
  · exact nat_repr_chars _ c hc

theorem noKey_toFixed1 (q : ℚ) : NoKey (toFixed1 q) :=
  noKey_of_numChars (toFixed1_chars q)

theorem noKey_tempCString (v : JsValue) : NoKey (tempCString v) := by
  cases htn : toNumber v with
  | some q => rw [tempCString, htn]; exact noKey_toFixed1 _
  | none =>
      rw [tempCString, htn]
      intro h
      exact absurd h.length_le (by decide)

theorem noKey_visString (v : JsValue) : NoKey (visString v) := by
  cases htn : toNumber v with
  | some q => rw [visString, htn]; exact noKey_toFixed1 _
  | none =>
      rw [visString, htn]
      intro h
      exact absurd h.length_le (by decide)

theorem noKey_nat_repr (n : Nat) : NoKey (Nat.repr n) :=
  noKey_of_numChars (nat_repr_chars n)

theorem except_bind_ok {α β : Type} {x : Except String α} {f : α → Except String β} {b : β}
    (h : (x >>= f) = .ok b) : ∃ a, x = .ok a ∧ f a = .ok b := by
  cases x with
  | ok a => exact ⟨a, rfl, h⟩
  | error e => simp [Bind.bind, Except.bind] at h

theorem jsToFixed1_ok {v : JsValue} {s : String} (h : jsToFixed1 v = .ok s) :
    ∃ q, v = .num q ∧ s = toFixed1 q := by
  cases v with
  | num q =>
      refine ⟨q, rfl, ?_⟩
      rw [jsToFixed1] at h
      exact (Except.ok.injEq _ _).mp h |>.symm
  | undefined => simp [jsToFixed1] at h
  | null => simp [jsToFixed1] at h
  | bool b => simp [jsToFixed1] at h
  | str s => simp [jsToFixed1] at h
  | arr l => simp [jsToFixed1] at h
  | obj l => simp [jsToFixed1] at h

theorem jsTemplate_str (s : String) : jsTemplate (.str s) = s := by
  simp [jsTemplate]

theorem jsTemplate_num (q : ℚ) : jsTemplate (.num q) = jsNumToString q := by
  simp [jsTemplate]

/-- Inversion of a successful `get_weather` run: either the non-ok early
return, or the fully parsed success path with every field-access result
pinned down. -/
theorem get_weather_ok_shape {loc : String} {resp : HttpResponse} {r : CallResult}
    (hr : get_weather loc resp = .ok r) :
    (respOk resp.status = false ∧
      r = ⟨[⟨"text", "Failed to fetch weather for \"" ++ loc ++ "\": HTTP " ++ Nat.repr resp.status⟩]⟩) ∨
    (respOk resp.status = true ∧
      ∃ city sysV country weatherV weather0 description mainV tq fq humidity windV sq visV,
        jsGet resp.body "name" = .ok city ∧
        jsGet resp.body "sys" = .ok sysV ∧
        jsGet sysV "country" = .ok country ∧
        jsGet resp.body "weather" = .ok weatherV ∧
        jsIndex weatherV 0 = .ok weather0 ∧
        jsGet weather0 "description" = .ok description ∧
        jsGet resp.body "main" = .ok mainV ∧
        jsGet mainV "temp" = .ok (.num tq) ∧
        jsGet mainV "feels_like" = .ok (.num fq) ∧
        jsGet mainV "humidity" = .ok humidity ∧
        jsGet resp.body "wind" = .ok windV ∧
        jsGet windV "speed" = .ok (.num sq) ∧
        jsGet resp.body "visibility" = .ok visV ∧
        r = ⟨[⟨"text", mkSummaryStrs (jsTemplate city) (jsTemplate country)
            (jsTemplate description) (toFixed1 ((tq - 32) * 5 / 9)) (toFixed1 tq)
            (toFixed1 fq) (jsTemplate humidity) (toFixed1 sq)
            (if jsTruthy visV then visString visV else "N/A")⟩]⟩) := by
  rw [get_weather] at hr
  cases hok : respOk resp.status with
  | false =>
      rw [hok] at hr
      simp only [Bool.not_false, if_true] at hr
      exact Or.inl ⟨rfl, ((Except.ok.injEq _ _).mp hr).symm⟩
  | true =>
      rw [hok] at hr
      simp only [Bool.not_true, Bool.false_eq_true, if_false] at hr
      refine Or.inr ⟨rfl, ?_⟩
      obtain ⟨city, h1, hr⟩ := except_bind_ok hr
      obtain ⟨sysV, h2, hr⟩ := except_bind_ok hr
      obtain ⟨country, h3, hr⟩ := except_bind_ok hr
      obtain ⟨weatherV, h4, hr⟩ := except_bind_ok hr
      obtain ⟨weather0, h5, hr⟩ := except_bind_ok hr
      obtain ⟨description, h6, hr⟩ := except_bind_ok hr
      obtain ⟨mainA, h7, hr⟩ := except_bind_ok hr
      obtain ⟨tempA, h8, hr⟩ := except_bind_ok hr
      obtain ⟨tempF, h9, hr⟩ := except_bind_ok hr
      obtain ⟨mainB, h10, hr⟩ := except_bind_ok hr
      obtain ⟨tempB, h11, hr⟩ := except_bind_ok hr
      obtain ⟨mainC, h12, hr⟩ := except_bind_ok hr
      obtain ⟨feelsV, h13, hr⟩ := except_bind_ok hr
      obtain ⟨feelsLikeF, h14, hr⟩ := except_bind_ok hr
      obtain ⟨mainD, h15, hr⟩ := except_bind_ok hr
      obtain ⟨humidity, h16, hr⟩ := except_bind_ok hr
      obtain ⟨windV, h17, hr⟩ := except_bind_ok hr
      obtain ⟨speedV, h18, hr⟩ := except_bind_ok hr
      obtain ⟨windMph, h19, hr⟩ := except_bind_ok hr
      obtain ⟨visV, h20, hfin⟩ := except_bind_ok hr
      obtain ⟨tq, rfl, rfl⟩ := jsToFixed1_ok h9
      obtain ⟨fq, rfl, rfl⟩ := jsToFixed1_ok h14
      obtain ⟨sq, rfl, rfl⟩ := jsToFixed1_ok h19
      have hmB : mainB = mainA := by
        rw [h7] at h10; exact ((Except.ok.injEq _ _).mp h10).symm
      have hmC : mainC = mainA := by
        rw [h7] at h12; exact ((Except.ok.injEq _ _).mp h12).symm
      have hmD : mainD = mainA := by
        rw [h7] at h15; exact ((Except.ok.injEq _ _).mp h15).symm
      rw [hmB] at h11
      rw [hmC] at h13
      rw [hmD] at h16
      have htB : tempB = .num tq := by
        rw [h8] at h11; exact ((Except.ok.injEq _ _).mp h11).symm
      subst htB
      injection hfin with hres
      exact ⟨city, sysV, country, weatherV, weather0, description, mainA, tq, fq,
        humidity, windV, sq, visV, h1, h2, h3, h4, h5, h6, h7, h8, h13, h16, h17,
        h18, h20, hres.symm⟩

/-- The failure message never contains the credential unless the interpolated
location does: every boundary character of the fixed template text is not a
hexadecimal digit. -/
theorem noKey_failMsg {loc : String} (status : Nat) (hloc : NoKey loc) :
    NoKey ("Failed to fetch weather for \"" ++ loc ++ "\": HTTP " ++ Nat.repr status) := by
  intro h
  simp only [String.data_append, List.append_assoc] at h
  have s1 := sub_right_of_last h (by decide) '"' (by decide) (by decide)
  have s2 := sub_right_of_head s1 hloc '"'
    ((List.head?_append_of_ne_nil _ (by decide)).trans (by decide)) (by decide)
  have s3 := sub_right_of_last s2 (by decide) ' ' (by decide) (by decide)
  exact noKey_nat_repr status s3

/-- The summary never contains the credential unless one of the interpolated
fragments does: every boundary character of the fixed template text is not a
hexadecimal digit. -/
theorem noKey_mkSummaryStrs {c co d tc tf fl hu wm vi : String}
    (hc : NoKey c) (hco : NoKey co) (hd : NoKey d) (htc : NoKey tc)
    (htf : NoKey tf) (hfl : NoKey fl) (hhu : NoKey hu) (hwm : NoKey wm)
    (hvi : NoKey vi) : NoKey (mkSummaryStrs c co d tc tf fl hu wm vi) := by
  intro h
  rw [mkSummaryStrs] at h
  simp only [String.data_append, List.append_assoc] at h
  have s1 := sub_right_of_last h (by decide) ' ' (by decide) (by decide)
  have s2 := sub_right_of_head s1 hc ','
    ((List.head?_append_of_ne_nil _ (by decide)).trans (by decide)) (by decide)
  have s3 := sub_right_of_last s2 (by decide) ' ' (by decide) (by decide)
  have s4 := sub_right_of_head s3 hco '\n'
    ((List.head?_append_of_ne_nil _ (by decide)).trans (by decide)) (by decide)
  have s5 := sub_right_of_last s4 (by decide) ' ' (by decide) (by decide)
  have s6 := sub_right_of_head s5 hd '\n'
    ((List.head?_append_of_ne_nil _ (by decide)).trans (by decide)) (by decide)
  have s7 := sub_right_of_last s6 (by decide) ' ' (by decide) (by decide)
  have s8 := sub_right_of_head s7 htc '°'
    ((List.head?_append_of_ne_nil _ (by decide)).trans (by decide)) (by decide)
  have s9 := sub_right_of_last s8 (by decide) ' ' (by decide) (by decide)
  have s10 := sub_right_of_head s9 htf '°'
    ((List.head?_append_of_ne_nil _ (by decide)).trans (by decide)) (by decide)
  have s11 := sub_right_of_last s10 (by decide) ' ' (by decide) (by decide)
  have s12 := sub_right_of_head s11 hfl '°'
    ((List.head?_append_of_ne_nil _ (by decide)).trans (by decide)) (by decide)
  have s13 := sub_right_of_last s12 (by decide) ')' (by decide) (by decide)
  have s14 := sub_right_of_last s13 (by decide) ' ' (by decide) (by decide)
  have s15 := sub_right_of_head s14 hhu '%'
    ((List.head?_append_of_ne_nil _ (by decide)).trans (by decide)) (by decide)
  have s16 := sub_right_of_last s15 (by decide) '%' (by decide) (by decide)
  have s17 := sub_right_of_last s16 (by decide) ' ' (by decide) (by decide)
  have s18 := sub_right_of_head s17 hwm ' '
    ((List.head?_append_of_ne_nil _ (by decide)).trans (by decide)) (by decide)
  have s19 := sub_right_of_last s18 (by decide) 'h' (by decide) (by decide)
  have s20 := sub_right_of_last s19 (by decide) ' ' (by decide) (by decide)
  have s21 := sub_right_of_head s20 hvi ' ' (by decide) (by decide)
  exact absurd s21 (by decide)

/-- The response-body values whose template-string conversion `get_weather`
interpolates into the summary: `name`, `sys.country`,
`weather[0].description` and `main.humidity`. -/
inductive EchoedFrom (body : JsValue) : JsValue → Prop where
  | name (v : JsValue) : jsGet body "name" = .ok v → EchoedFrom body v
  | country (s v : JsValue) : jsGet body "sys" = .ok s →
      jsGet s "country" = .ok v → EchoedFrom body v
  | description (w w0 v : JsValue) : jsGet body "weather" = .ok w →
      jsIndex w 0 = .ok w0 → jsGet w0 "description" = .ok v → EchoedFrom body v
  | humidity (m v : JsValue) : jsGet body "main" = .ok m →
      jsGet m "humidity" = .ok v → EchoedFrom body v

/-- Evaluation rule for `toFixed1` on a nonnegative rational whose scaled
rounding is the natural number `m`. -/
theorem toFixed1_eval_nonneg (q : ℚ) (m : ℕ) (h0 : 0 ≤ q)
    (hm : ⌊10 * q + 1 / 2⌋ = (m : ℤ)) :
    toFixed1 q = Nat.repr (m / 10) ++ "." ++ Nat.repr (m % 10) := by
  have h1 : ¬ q < 0 := not_lt.mpr h0
  simp only [toFixed1, h1, if_false, abs_of_nonneg h0, ratFloor_eq_floor, hm,
    Int.toNat_natCast]
  simp

/-- A filesystem oracle holding one secret file outside the sandbox. -/
def secretFs : String → Except FsError String :=
  fun p => if p = "/files-secret/x" then .ok "top secret" else .error .notFound

/-- A filesystem oracle with no readable files. -/
def emptyFs : String → Except FsError String := fun _ => .error .notFound

/-! Claims. -/

/-- C1: the claim says the guard accepts only a resolved path equal to the
sandbox root or extending it past a path separator, and in particular denies
a sibling directory whose name shares the root as a string prefix.  The code
(src/index.js line 96) uses a bare `startsWith`, so for root `/files` the
traversal name `../files-secret/x` resolves to `/files-secret/x`, passes the
guard although it is outside the sandbox by the claim's own criterion, and
the file is read and returned. -/
theorem pathGuard_admits_sibling_prefix_escape :
    pathResolve "/files" "../files-secret/x" = "/files-secret/x" ∧
    pathGuard "/files" "../files-secret/x" = some "/files-secret/x" ∧
    ¬("/files-secret/x" = "/files" ∨
      jsStartsWith "/files-secret/x" ("/files" ++ "/") = true) ∧
    read_file "/files" secretFs "../files-secret/x" = ⟨[⟨"text", "top secret"⟩]⟩ :=
  ⟨by decide, by decide, by decide, by decide⟩

/-- C4: on a non-success HTTP status, `get_weather` returns the failure
result whose message contains both the location and the numeric status code,
and the response body is never parsed: the result is the same for every
body. -/
theorem get_weather_non_success_failure (loc : String) (status : Nat)
    (body body2 : JsValue) (h : respOk status = false) :
    get_weather loc ⟨status, body⟩ =
      .ok ⟨[⟨"text", "Failed to fetch weather for \"" ++ loc ++ "\": HTTP " ++ Nat.repr status⟩]⟩ ∧
    Contains ("Failed to fetch weather for \"" ++ loc ++ "\": HTTP " ++ Nat.repr status) loc ∧
    Contains ("Failed to fetch weather for \"" ++ loc ++ "\": HTTP " ++ Nat.repr status)
      (Nat.repr status) ∧
    get_weather loc ⟨status, body⟩ = get_weather loc ⟨status, body2⟩ := by
  refine ⟨?_, ?_, ?_, ?_⟩
  · rw [get_weather]; simp [h]
  · exact ⟨"Failed to fetch weather for \"", "\": HTTP " ++ Nat.repr status,
      by simp [String.append_assoc]⟩
  · exact ⟨"Failed to fetch weather for \"" ++ loc ++ "\": HTTP ", "",
      by simp [String.append_assoc]⟩
  · rw [get_weather, get_weather]; simp [h]

theorem get_weather_non_success_failure_witness :
    respOk 404 = false ∧
    get_weather "Nowhereville" ⟨404, .null⟩ =
      .ok ⟨[⟨"text", "Failed to fetch weather for \"Nowhereville\": HTTP 404"⟩]⟩ ∧
    Contains "Failed to fetch weather for \"Nowhereville\": HTTP 404" "Nowhereville" ∧
    Contains "Failed to fetch weather for \"Nowhereville\": HTTP 404" "404" := by
  have h := get_weather_non_success_failure "Nowhereville" 404 .null .null (by decide)
  exact ⟨by decide, h.1, h.2.1, h.2.2.1⟩

/-- C5: once the guard passes, any read failure, of any kind, yields the one
collapsed message containing the caller's filename, and the handler returns
it (the error is caught, not propagated). -/
theorem read_file_collapses_read_failures (filesDir filename : String)
    (fs fs2 : String → Except FsError String) (e e2 : FsError)
    (hpass : jsStartsWith (pathResolve filesDir filename) filesDir = true)
    (hfs : fs (pathResolve filesDir filename) = .error e)
    (hfs2 : fs2 (pathResolve filesDir filename) = .error e2) :
    read_file filesDir fs filename =
      ⟨[⟨"text", "File not found: \"" ++ filename ++ "\" does not exist in the files/ directory"⟩]⟩ ∧
    read_file filesDir fs filename = read_file filesDir fs2 filename ∧
    Contains ("File not found: \"" ++ filename ++ "\" does not exist in the files/ directory")
      filename := by
  refine ⟨?_, ?_, ?_⟩
  · rw [read_file]; simp [hpass, hfs]
  · rw [read_file, read_file]; simp [hpass, hfs, hfs2]
  · exact ⟨"File not found: \"", "\" does not exist in the files/ directory",
      by simp [String.append_assoc]⟩

theorem read_file_collapses_read_failures_witness :
    jsStartsWith (pathResolve "/files" "ghost.txt") "/files" = true ∧
    read_file "/files" emptyFs "ghost.txt" =
      ⟨[⟨"text", "File not found: \"ghost.txt\" does not exist in the files/ directory"⟩]⟩ := by
  have h := read_file_collapses_read_failures "/files" "ghost.txt" emptyFs emptyFs
    .notFound .notFound (by decide) rfl rfl
  exact ⟨by decide, h.1⟩

/-- C6: when the guard denies a filename, `read_file` returns the fixed
denial immediately and performs no filesystem operation: the result is the
same under every filesystem oracle (and the guard itself takes none). -/
theorem read_file_denied_touches_no_fs (filesDir filename : String)
    (fs fs2 : String → Except FsError String)
    (hdeny : jsStartsWith (pathResolve filesDir filename) filesDir = false) :
    read_file filesDir fs filename =
      ⟨[⟨"text", "Access denied: path is outside the files directory."⟩]⟩ ∧
    read_file filesDir fs filename = read_file filesDir fs2 filename := by
  constructor
  · rw [read_file]; simp [hdeny]
  · rw [read_file, read_file]; simp [hdeny]

theorem read_file_denied_touches_no_fs_witness :
    jsStartsWith (pathResolve "/files" "../outside.txt") "/files" = false ∧
    read_file "/files" (fun _ => .ok "outside contents") "../outside.txt" =
      ⟨[⟨"text", "Access denied: path is outside the files directory."⟩]⟩ ∧
    read_file "/files" (fun _ => .ok "outside contents") "../outside.txt" =
      read_file "/files" emptyFs "../outside.txt" := by
  have h := read_file_denied_touches_no_fs "/files" "../outside.txt"
    (fun _ => .ok "outside contents") emptyFs (by decide)
  exact ⟨by decide, h.1, h.2⟩

/-- C7: a file whose resolved path lies inside the sandbox and whose read
succeeds is returned in full, unmodified, as the single text block. -/
theorem read_file_returns_exact_contents (filesDir filename rest contents : String)
    (fs : String → Except FsError String)
    (hres : pathResolve filesDir filename = filesDir ++ "/" ++ rest)
    (hfs : fs (filesDir ++ "/" ++ rest) = .ok contents) :
    read_file filesDir fs filename = ⟨[⟨"text", contents⟩]⟩ := by
  have hpass : jsStartsWith (filesDir ++ "/" ++ rest) filesDir = true := by
    rw [jsStartsWith, List.isPrefixOf_iff_prefix]
    simp only [String.data_append, List.append_assoc]
    exact List.prefix_append _ _
  rw [read_file]
  simp [hres, hpass, hfs]

theorem read_file_returns_exact_contents_witness :
    pathResolve "/files" "hello.txt" = "/files" ++ "/" ++ "hello.txt" ∧
    read_file "/files" (fun p => if p = "/files/hello.txt" then .ok "hi" else .error .notFound)
      "hello.txt" = ⟨[⟨"text", "hi"⟩]⟩ := by
  have h := read_file_returns_exact_contents "/files" "hello.txt" "hello.txt" "hi"
    (fun p => if p = "/files/hello.txt" then .ok "hi" else .error .notFound)
    (by decide) rfl
  exact ⟨by decide, h⟩

/-- C8: the guard is a pure function of the root and the requested name (two
equal inputs give equal canonical outputs, definitionally in this embedding),
and it accepts every name whose resolution lands strictly inside the
sandbox. -/
theorem pathGuard_pure_and_accepts_inside (root name rest : String)
    (hrest : rest ≠ "")
    (hinside : pathResolve root name = root ++ "/" ++ rest) :
    pathGuard root name = some (pathResolve root name) ∧
    ∀ name2 : String, name2 = name → pathGuard root name2 = pathGuard root name := by
  constructor
  · have hpass : jsStartsWith (pathResolve root name) root = true := by
      rw [hinside, jsStartsWith, List.isPrefixOf_iff_prefix]
      simp only [String.data_append, List.append_assoc]
      exact List.prefix_append _ _
    rw [pathGuard]
    simp [hpass]
  · intro name2 h
    rw [h]

theorem pathGuard_pure_and_accepts_inside_witness :
    pathResolve "/files" "notes.txt" = "/files" ++ "/" ++ "notes.txt" ∧
    pathGuard "/files" "notes.txt" = some (pathResolve "/files" "notes.txt") ∧
    pathGuard "/files" "notes.txt" = some "/files/notes.txt" := by
  have h := pathGuard_pure_and_accepts_inside "/files" "notes.txt" "notes.txt"
    (by decide) (by decide)
  exact ⟨by decide, h.1, by decide⟩

/-- C2 counterexample: a success response whose JSON object lacks the `sys`
field makes the handler throw (`data.sys` is `undefined`, so `.country`
raises a TypeError); it does not return a CallResult, and no generic
parse-error Failure is produced. -/
theorem get_weather_missing_field_throws_counterexample :
    get_weather "London" ⟨200, .obj [("name", .str "London")]⟩ =
      .error "TypeError: cannot read properties of undefined (reading country)" := by
  rfl

/-- C2 (amended): the handler has no try/catch, so on a success response
whose body is an object without a `sys` field the field access throws and the
TypeError propagates out of the handler instead of being converted into a
Failure result with a parse-error message: the handler returns no CallResult
at all. -/
theorem get_weather_throws_on_missing_sys (loc : String) (status : Nat)
    (fields : List (String × JsValue)) (hok : respOk status = true)
    (hsys : fields.lookup "sys" = none) :
    ∃ e, get_weather loc ⟨status, .obj fields⟩ = .error e := by
  cases hgw : get_weather loc ⟨status, .obj fields⟩ with
  | error e => exact ⟨e, rfl⟩
  | ok r =>
      exfalso
      rcases get_weather_ok_shape hgw with ⟨hfalse, _⟩ | ⟨_, h⟩
      · rw [hok] at hfalse
        cases hfalse
      · obtain ⟨city, sysV, country, weatherV, weather0, description, mainV, tq, fq,
          humidity, windV, sq, visV, _, h2, h3, _⟩ := h
        have hsv : sysV = JsValue.undefined := by
          have e : jsGet (JsValue.obj fields) "sys" =
              Except.ok ((fields.lookup "sys").getD JsValue.undefined) := rfl
          rw [e, hsys] at h2
          exact ((Except.ok.injEq _ _).mp h2).symm
        subst hsv
        simp [jsGet] at h3

theorem get_weather_throws_on_missing_sys_witness :
    respOk 201 = true ∧
    (List.lookup "sys" [("name", JsValue.str "Paris")] = none) ∧
    get_weather "Paris" ⟨201, .obj [("name", .str "Paris")]⟩ =
      .error "TypeError: cannot read properties of undefined (reading country)" := by
  obtain ⟨e, he⟩ := get_weather_throws_on_missing_sys "Paris" 201
    [("name", .str "Paris")] (by decide) rfl
  refine ⟨by decide, rfl, ?_⟩
  rw [show e = "TypeError: cannot read properties of undefined (reading country)" by
    have := he.symm.trans (rfl :
      get_weather "Paris" ⟨201, .obj [("name", .str "Paris")]⟩ =
        .error "TypeError: cannot read properties of undefined (reading country)")
    exact (Except.error.injEq _ _).mp this] at he
  exact he

/-- C10: every CallResult either handler produces has exactly one content
block, and its type is text — on the failure path, the success path, and for
`read_file` on denial, read success and read failure alike. -/
theorem handlers_return_single_text_block :
    (∀ (loc : String) (resp : HttpResponse) (r : CallResult),
        get_weather loc resp = .ok r → ∃ t, r.content = [⟨"text", t⟩]) ∧
    (∀ (filesDir : String) (fs : String → Except FsError String) (filename : String),
        ∃ t, (read_file filesDir fs filename).content = [⟨"text", t⟩]) := by
  constructor
  · intro loc resp r hr
    rcases get_weather_ok_shape hr with ⟨_, rfl⟩ | ⟨_, h⟩
    · exact ⟨_, rfl⟩
    · obtain ⟨city, sysV, country, weatherV, weather0, description, mainV, tq, fq,
        humidity, windV, sq, visV, _, _, _, _, _, _, _, _, _, _, _, _, _, hre⟩ := h
      rw [hre]
      exact ⟨_, rfl⟩
  · intro filesDir fs filename
    rw [read_file]
    cases hs : jsStartsWith (pathResolve filesDir filename) filesDir with
    | false => simp [hs]
    | true =>
        simp only [hs, Bool.not_true, Bool.false_eq_true, if_false]
        cases fs (pathResolve filesDir filename) with
        | ok c => exact ⟨c, rfl⟩
        | error e => exact ⟨_, rfl⟩

theorem handlers_return_single_text_block_witness :
    (⟨[⟨"text", "Failed to fetch weather for \"x\": HTTP 404"⟩]⟩ : CallResult).content.length = 1 ∧
    (read_file "/files" emptyFs "nope.txt").content.length = 1 := by
  constructor
  · obtain ⟨t, ht⟩ := handlers_return_single_text_block.1 "x" ⟨404, .null⟩
      ⟨[⟨"text", "Failed to fetch weather for \"x\": HTTP 404"⟩]⟩ rfl
    rw [ht]
    rfl
  · obtain ⟨t, ht⟩ := handlers_return_single_text_block.2 "/files" emptyFs "nope.txt"
    rw [ht]
    rfl

/-- A response body of the shape the provider documents, with optional extra
fields (used for `visibility`). -/
def weatherBody (city country desc : String) (temp fl hum speed : ℚ)
    (extra : List (String × JsValue)) : JsValue :=
  .obj ([("name", .str city),
    ("sys", .obj [("country", .str country)]),
    ("weather", .arr [.obj [("description", .str desc)]]),
    ("main", .obj [("temp", .num temp), ("feels_like", .num fl), ("humidity", .num hum)]),
    ("wind", .obj [("speed", .num speed)])] ++ extra)

/-- C3 (amended): on a well-formed success body the summary reports Celsius
as (F − 32)·5⁄9 rounded to one decimal and visibility as meters/1000 to one
decimal — but the marker N/A is shown when visibility is absent OR when its
value is 0 (the code tests JS truthiness, not presence). -/
theorem get_weather_celsius_and_visibility
    (loc city country desc : String) (status : Nat) (temp fl hum speed : ℚ)
    (hok : respOk status = true) :
    (get_weather loc ⟨status, weatherBody city country desc temp fl hum speed []⟩ =
      .ok ⟨[⟨"text", mkSummaryStrs city country desc (toFixed1 ((temp - 32) * 5 / 9))
        (toFixed1 temp) (toFixed1 fl) (jsNumToString hum) (toFixed1 speed) "N/A"⟩]⟩) ∧
    (∀ v : ℚ, v ≠ 0 →
      get_weather loc ⟨status, weatherBody city country desc temp fl hum speed
          [("visibility", .num v)]⟩ =
        .ok ⟨[⟨"text", mkSummaryStrs city country desc (toFixed1 ((temp - 32) * 5 / 9))
          (toFixed1 temp) (toFixed1 fl) (jsNumToString hum) (toFixed1 speed)
          (toFixed1 (v / 1000))⟩]⟩) ∧
    (get_weather loc ⟨status, weatherBody city country desc temp fl hum speed
        [("visibility", .num 0)]⟩ =
      .ok ⟨[⟨"text", mkSummaryStrs city country desc (toFixed1 ((temp - 32) * 5 / 9))
        (toFixed1 temp) (toFixed1 fl) (jsNumToString hum) (toFixed1 speed) "N/A"⟩]⟩) := by
  refine ⟨?_, ?_, ?_⟩
  · rw [get_weather]
    simp only [hok, Bool.not_true, Bool.false_eq_true, if_false]
    show (Except.ok (⟨[⟨"text", mkSummaryStrs (jsTemplate (.str city)) (jsTemplate (.str country))
        (jsTemplate (.str desc)) (tempCString (.num temp)) (toFixed1 temp) (toFixed1 fl)
        (jsTemplate (.num hum)) (toFixed1 speed) "N/A"⟩]⟩ : CallResult) :
      Except String CallResult) = _
    rw [jsTemplate_str, jsTemplate_str, jsTemplate_str, jsTemplate_num,
      show tempCString (JsValue.num temp) = toFixed1 ((temp - 32) * 5 / 9) from rfl]
  · intro v hv
    rw [get_weather]
    simp only [hok, Bool.not_true, Bool.false_eq_true, if_false]
    have ht : jsTruthy (JsValue.num v) = true := by simp [jsTruthy, hv]
    show (Except.ok (⟨[⟨"text", mkSummaryStrs (jsTemplate (.str city)) (jsTemplate (.str country))
        (jsTemplate (.str desc)) (tempCString (.num temp)) (toFixed1 temp) (toFixed1 fl)
        (jsTemplate (.num hum)) (toFixed1 speed)
        (if jsTruthy (JsValue.num v) = true then visString (JsValue.num v) else "N/A")⟩]⟩ :
      CallResult) : Except String CallResult) = _
    rw [ht, if_pos rfl, jsTemplate_str, jsTemplate_str, jsTemplate_str, jsTemplate_num,
      show tempCString (JsValue.num temp) = toFixed1 ((temp - 32) * 5 / 9) from rfl,
      show visString (JsValue.num v) = toFixed1 (v / 1000) from rfl]
  · rw [get_weather]
    simp only [hok, Bool.not_true, Bool.false_eq_true, if_false]
    show (Except.ok (⟨[⟨"text", mkSummaryStrs (jsTemplate (.str city)) (jsTemplate (.str country))
        (jsTemplate (.str desc)) (tempCString (.num temp)) (toFixed1 temp) (toFixed1 fl)
        (jsTemplate (.num hum)) (toFixed1 speed) "N/A"⟩]⟩ : CallResult) :
      Except String CallResult) = _
    rw [jsTemplate_str, jsTemplate_str, jsTemplate_str, jsTemplate_num,
      show tempCString (JsValue.num temp) = toFixed1 ((temp - 32) * 5 / 9) from rfl]

/-- C3 counterexample: with `visibility` present and equal to 0 meters, the
summary still shows the literal N/A, so N/A does not appear exactly when
visibility is absent. -/
theorem get_weather_visibility_zero_counterexample :
    jsGet (weatherBody "Tampa" "US" "clear sky" 68 70 50 5 [("visibility", .num 0)])
      "visibility" = .ok (.num 0) ∧
    get_weather "Tampa" ⟨200, weatherBody "Tampa" "US" "clear sky" 68 70 50 5
        [("visibility", .num 0)]⟩ =
      .ok ⟨[⟨"text", "Weather for Tampa, US\nCondition:   clear sky\nTemperature: 20.0°C / 68.0°F (feels like 70.0°F)\nHumidity:    50%\nWind:        5.0 mph\nVisibility:  N/A km"⟩]⟩ := by
  have e68 : toFixed1 (68 : ℚ) = "68.0" := by
    rw [toFixed1_eval_nonneg (68 : ℚ) 680 (by norm_num) (by norm_num)]; rfl
  have hc : ((68 : ℚ) - 32) * 5 / 9 = 20 := by norm_num
  have e20 : toFixed1 (((68 : ℚ) - 32) * 5 / 9) = "20.0" := by
    rw [hc, toFixed1_eval_nonneg (20 : ℚ) 200 (by norm_num) (by norm_num)]; rfl
  have e70 : toFixed1 (70 : ℚ) = "70.0" := by
    rw [toFixed1_eval_nonneg (70 : ℚ) 700 (by norm_num) (by norm_num)]; rfl
  have e5 : toFixed1 (5 : ℚ) = "5.0" := by
    rw [toFixed1_eval_nonneg (5 : ℚ) 50 (by norm_num) (by norm_num)]; rfl
  constructor
  · rfl
  · show (Except.ok (⟨[⟨"text", mkSummaryStrs (jsTemplate (.str "Tampa")) (jsTemplate (.str "US"))
        (jsTemplate (.str "clear sky")) (tempCString (.num 68)) (toFixed1 68) (toFixed1 70)
        (jsTemplate (.num 50)) (toFixed1 5) "N/A"⟩]⟩ : CallResult) :
      Except String CallResult) = _
    rw [jsTemplate_str, jsTemplate_str, jsTemplate_str, jsTemplate_num,
      show tempCString (JsValue.num 68) = toFixed1 (((68 : ℚ) - 32) * 5 / 9) from rfl,
      e20, e68, e70, e5, show jsNumToString 50 = "50" from rfl]
    rfl

theorem get_weather_celsius_and_visibility_witness :
    get_weather "Tampa" ⟨200, weatherBody "Tampa" "US" "clear sky" 68 70 50 5 []⟩ =
      .ok ⟨[⟨"text", "Weather for Tampa, US\nCondition:   clear sky\nTemperature: 20.0°C / 68.0°F (feels like 70.0°F)\nHumidity:    50%\nWind:        5.0 mph\nVisibility:  N/A km"⟩]⟩ := by
  have h := (get_weather_celsius_and_visibility "Tampa" "Tampa" "US" "clear sky" 200
    68 70 50 5 (by decide)).1
  have e68 : toFixed1 (68 : ℚ) = "68.0" := by
    rw [toFixed1_eval_nonneg (68 : ℚ) 680 (by norm_num) (by norm_num)]; rfl
  have hc : ((68 : ℚ) - 32) * 5 / 9 = 20 := by norm_num
  have e20 : toFixed1 (((68 : ℚ) - 32) * 5 / 9) = "20.0" := by
    rw [hc, toFixed1_eval_nonneg (20 : ℚ) 200 (by norm_num) (by norm_num)]; rfl
  have e70 : toFixed1 (70 : ℚ) = "70.0" := by
    rw [toFixed1_eval_nonneg (70 : ℚ) 700 (by norm_num) (by norm_num)]; rfl
  have e5 : toFixed1 (5 : ℚ) = "5.0" := by
    rw [toFixed1_eval_nonneg (5 : ℚ) 50 (by norm_num) (by norm_num)]; rfl
  rw [h, e20, e68, e70, e5, show jsNumToString 50 = "50" from rfl]
  rfl

/-- C9 counterexample: the claim quantifies over every location input, but a
location that itself contains the credential is echoed verbatim into the
failure message, so the credential appears in the returned CallResult text. -/
theorem get_weather_leaks_key_counterexample :
    get_weather WEATHER_API_KEY ⟨404, .null⟩ =
      .ok ⟨[⟨"text", "Failed to fetch weather for \"9e16d62c8463bb8555971f49447c76e1\": HTTP 404"⟩]⟩ ∧
    keyChars <:+:
      ("Failed to fetch weather for \"9e16d62c8463bb8555971f49447c76e1\": HTTP 404" : String).data :=
  ⟨rfl, by decide⟩

/-- C9 (amended): the handler itself never inserts the credential: the
credential cannot occur in any returned text unless it already occurs in the
location argument or in a string the handler derives from the response body
(name, sys.country, weather[0].description, main.humidity); all other
fragments are fixed template text or formatted numbers. -/
theorem get_weather_no_key_unless_echoed (loc : String) (resp : HttpResponse)
    (r : CallResult) (hr : get_weather loc resp = .ok r) (hloc : NoKey loc)
    (hecho : ∀ v : JsValue, EchoedFrom resp.body v → NoKey (jsTemplate v)) :
    ∀ blk ∈ r.content, NoKey blk.text := by
  intro blk hblk
  rcases get_weather_ok_shape hr with ⟨_, rfl⟩ | ⟨_, h⟩
  · rcases List.mem_singleton.mp hblk with rfl
    exact noKey_failMsg resp.status hloc
  · obtain ⟨city, sysV, country, weatherV, weather0, description, mainV, tq, fq,
      humidity, windV, sq, visV, h1, h2, h3, h4, h5, h6, h7, h8, h13, h16, h17,
      h18, h20, hre⟩ := h
    subst hre
    rcases List.mem_singleton.mp hblk with rfl
    refine noKey_mkSummaryStrs ?_ ?_ ?_ ?_ ?_ ?_ ?_ ?_ ?_
    · exact hecho city (.name city h1)
    · exact hecho country (.country sysV country h2 h3)
    · exact hecho description (.description weatherV weather0 description h4 h5 h6)
    · exact noKey_toFixed1 _
    · exact noKey_toFixed1 _
    · exact noKey_toFixed1 _
    · exact hecho humidity (.humidity mainV humidity h7 h16)
    · exact noKey_toFixed1 _
    · cases hv : jsTruthy visV with
      | false =>
          simp only [hv, Bool.false_eq_true, if_false]
          intro hcontra
          exact absurd hcontra.length_le (by decide)
      | true =>
          simp only [hv, if_true]
          exact noKey_visString _

theorem get_weather_no_key_unless_echoed_witness :
    NoKey "Failed to fetch weather for \"Tampa\": HTTP 404" := by
  have hr : get_weather "Tampa" ⟨404, .null⟩ =
      .ok ⟨[⟨"text", "Failed to fetch weather for \"Tampa\": HTTP 404"⟩]⟩ := rfl
  have hloc : NoKey "Tampa" := by
    intro hcontra
    exact absurd hcontra.length_le (by decide)
  have hecho : ∀ v : JsValue, EchoedFrom JsValue.null v → NoKey (jsTemplate v) := by
    intro v hv
    cases hv with
    | name v h => simp [jsGet] at h
    | country s v h h2 => simp [jsGet] at h
    | description w w0 v h h2 h3 => simp [jsGet] at h
    | humidity m v h h2 => simp [jsGet] at h
  have h := get_weather_no_key_unless_echoed "Tampa" ⟨404, .null⟩ _ hr hloc hecho
  exact h ⟨"text", "Failed to fetch weather for \"Tampa\": HTTP 404"⟩
    (List.mem_singleton.mpr rfl)

end Mcp
